import Mathlib

/-!
Verification of `src/proxy/server.rs` (linkerd2-proxy): the connection
dispatcher (`Server::serve`), the per-connection `Source` descriptor, and
the cross-family socket-address equality used to suppress self-redirection
loops (`Source::same_addr`, `Source::orig_dst_if_not_local`).

Machine integers are modelled as `Nat`; where the Rust code truncates
(`as u8` casts inside `Ipv6Addr::to_ipv4`) the model uses explicit `% 256`.
Well-formedness predicates (`wf`) record the range invariants that the Rust
types `u8`/`u16` carry intrinsically.
-/

/-- An IPv4 address: four octets (Rust `std::net::Ipv4Addr`). -/
structure Ipv4Addr where
  a : Nat
  b : Nat
  c : Nat
  d : Nat
deriving DecidableEq, Repr

/-- An IPv6 address: eight 16-bit segments (Rust `std::net::Ipv6Addr`). -/
structure Ipv6Addr where
  s0 : Nat
  s1 : Nat
  s2 : Nat
  s3 : Nat
  s4 : Nat
  s5 : Nat
  s6 : Nat
  s7 : Nat
deriving DecidableEq, Repr

/-- Rust `std::net::IpAddr`. -/
inductive IpAddr where
  | V4 (addr : Ipv4Addr)
  | V6 (addr : Ipv6Addr)
deriving DecidableEq, Repr

/-- Rust `std::net::SocketAddr`, reduced to the fields the dispatcher
reads: the IP and the port. -/
structure SocketAddr where
  ip : IpAddr
  port : Nat
deriving DecidableEq, Repr

/-- Octets of an IPv4 address fit in a byte (intrinsic to Rust `u8`). -/
abbrev Ipv4Addr.wf (v : Ipv4Addr) : Prop :=
  v.a < 256 ∧ v.b < 256 ∧ v.c < 256 ∧ v.d < 256

/-- Segments of an IPv6 address fit in 16 bits (intrinsic to Rust `u16`). -/
abbrev Ipv6Addr.wf (v : Ipv6Addr) : Prop :=
  v.s0 < 65536 ∧ v.s1 < 65536 ∧ v.s2 < 65536 ∧ v.s3 < 65536 ∧
  v.s4 < 65536 ∧ v.s5 < 65536 ∧ v.s6 < 65536 ∧ v.s7 < 65536

/-- Range invariant of an `IpAddr`. -/
def IpAddr.wf : IpAddr → Prop
  | .V4 v => v.wf
  | .V6 v => v.wf

instance : (ip : IpAddr) → Decidable ip.wf
  | .V4 v => inferInstanceAs (Decidable v.wf)
  | .V6 v => inferInstanceAs (Decidable v.wf)

/-- A socket address whose IP and port are in range. -/
abbrev SocketAddr.wf (s : SocketAddr) : Prop :=
  s.ip.wf ∧ s.port < 65536

/-- Rust `Ipv6Addr::to_ipv4` (as of the toolchain this code was written
against): converts an IPv4-compatible (`::a.b.c.d`) or IPv4-mapped
(`::ffff:a.b.c.d`) address, i.e. segments `[0, 0, 0, 0, 0, f, g, h]` with
`f == 0 || f == 0xffff`, into `Ipv4Addr::new(g >> 8, g, h >> 8, h)` with
`as u8` truncation; returns `None` otherwise. -/
def Ipv6Addr.to_ipv4 (v : Ipv6Addr) : Option Ipv4Addr :=
  if v.s0 = 0 ∧ v.s1 = 0 ∧ v.s2 = 0 ∧ v.s3 = 0 ∧ v.s4 = 0 ∧
     (v.s5 = 0 ∨ v.s5 = 0xffff) then
    some ⟨v.s6 / 256 % 256, v.s6 % 256, v.s7 / 256 % 256, v.s7 % 256⟩
  else
    none

/-- `tls::Status` is external to this file; it is carried opaquely by
`Source` and never inspected by the dispatcher, so it is modelled as an
opaque tag. -/
structure TlsStatus where
  tag : Nat
deriving DecidableEq, Repr

/-- `Source`: describes an accepted connection. The Rust field `local` is
named `local_addr` here because `local` is reserved in Lean; the `_p : ()`
private marker field is omitted (it carries no data). -/
structure Source where
  remote : SocketAddr
  local_addr : SocketAddr
  orig_dst : Option SocketAddr
  tls_status : TlsStatus
deriving DecidableEq, Repr

namespace Source

/-- `Source::same_addr`: ports equal, and the IPs equal after resolving a
V6/V4 mix through `Ipv6Addr::to_ipv4`. -/
def same_addr (a0 a1 : SocketAddr) : Bool :=
  (a0.port == a1.port) &&
    (match a0.ip, a1.ip with
     | .V6 b0, .V4 b1 => b0.to_ipv4 == some b1
     | .V4 b0, .V6 b1 => some b0 == b1.to_ipv4
     | .V4 b0, .V4 b1 => b0 == b1
     | .V6 b0, .V6 b1 => b0 == b1)

/-- `Source::orig_dst_if_not_local`: the recorded original destination,
suppressed when absent or equal (per `same_addr`) to the local address. -/
def orig_dst_if_not_local (s : Source) : Option SocketAddr :=
  match s.orig_dst with
  | none => none
  | some orig_dst =>
      if same_addr orig_dst s.local_addr then none else some orig_dst

end Source

/-- `proxy::protocol::Protocol`: the closed protocol enumeration; the
"undetected" outcome is `Option.none` at use sites, as in the source. -/
inductive Protocol where
  | Http1
  | Http2
deriving DecidableEq, Repr

/-- Dispatcher configuration read by `Server::serve`: the disable-detection
port set (`IndexSet<u16>`, modelled as a list queried by membership) and
the configured listen address. The factories, HTTP drivers, drain handle
and logger held by the Rust struct are capabilities; their per-connection
results appear in `ConnInput` and the task structure below. -/
structure Server where
  disable_protocol_detection_ports : List Nat
  listen_addr : SocketAddr
deriving Repr

/-- The environment of one `serve` call: the remote address argument plus
the result each external collaborator would give for this connection.
`accept_ok`, `peek_ok` and `route_ok` model the binary success/failure of
`accept.make`, `io.peek()` and `route.make`; `detected` models what
`Protocol::detect` would return on the peeked bytes. -/
structure ConnInput where
  remote : SocketAddr
  conn_local_addr : Option SocketAddr
  orig_dst : Option SocketAddr
  tls : TlsStatus
  accept_ok : Bool
  peek_ok : Bool
  detected : Option Protocol
  route_ok : Bool
deriving DecidableEq, Repr

/-- The connection-driving work a branch of `serve` can produce. -/
inductive InnerWork where
  | tcpForward (src : Source)
  | http1Conn (src : Source)
  | http2Conn (src : Source)
deriving DecidableEq, Repr

/-- The task `serve` returns for execution. `watched` is work wrapped by
`drain_signal.watch`; `bare` is work handed over without drain
supervision (expressible in the grammar, so that its absence is a theorem
about `serve`, not about the type); `errored` is a task that completes
with an error after logging (`future::err` / the mapped peek error). -/
inductive ConnTask where
  | watched (work : InnerWork)
  | bare (work : InnerWork)
  | errored
deriving DecidableEq, Repr

/-- Outcome of a `serve` call: a panic (the `.expect` on `accept.make`) or
a returned task. -/
inductive ServeOutcome where
  | panic (msg : String)
  | task (t : ConnTask)
deriving DecidableEq, Repr

/-- How many times `serve` invoked each collaborator while dispatching one
connection: `accept.make`, `io.peek()`, `Protocol::detect`, `route.make`,
and the connect-factory (consumed by `tcp::forward`). -/
structure Invocations where
  accept : Nat
  peek : Nat
  detect : Nat
  route : Nat
  connect : Nat
deriving DecidableEq, Repr

/-- Result of one `serve` call: the `Source` it constructed, its outcome,
and the collaborator invocation counts. -/
structure ServeResult where
  source : Source
  outcome : ServeOutcome
  inv : Invocations
deriving DecidableEq, Repr

/-- The `Source { ... }` literal `serve` builds up front: remote address,
local address falling back to the configured `listen_addr`, the raw
resolved `orig_dst`, and the connection's TLS status. -/
def mkSource (srv : Server) (c : ConnInput) : Source :=
  { remote := c.remote
    local_addr := c.conn_local_addr.getD srv.listen_addr
    orig_dst := c.orig_dst
    tls_status := c.tls }

/-- The local `disable_protocol_detection` of `serve`: the raw `orig_dst`
port looked up in the disable set, `false` when no `orig_dst` was
resolved. -/
def disable_protocol_detection (srv : Server) (c : ConnInput) : Bool :=
  (c.orig_dst.map (fun addr =>
    srv.disable_protocol_detection_ports.contains addr.port)).getD false

/-- `Server::serve`, line by line: resolve `orig_dst`; build `Source`
(`mkSource`); `accept.make(&source).expect("source must be acceptable")`;
if `orig_dst`'s port is in the disable set, return the drain-watched
`tcp::forward`; otherwise peek (terminating the task with a logged error
on failure), run `Protocol::detect` on the peeked bytes, and branch:
undetected → drain-watched `tcp::forward`; `Http1` → `route.make(&source)`,
failing the task on `Err` and otherwise returning the drain-watched hyper
connection; `Http2` → the drain-watched `tower_h2` server (per-stream
`route.make` happens later, inside the running task). -/
def serve (srv : Server) (c : ConnInput) : ServeResult :=
  if !c.accept_ok then
    { source := mkSource srv c
      outcome := .panic "source must be acceptable"
      inv := ⟨1, 0, 0, 0, 0⟩ }
  else if disable_protocol_detection srv c then
    { source := mkSource srv c
      outcome := .task (.watched (.tcpForward (mkSource srv c)))
      inv := ⟨1, 0, 0, 0, 1⟩ }
  else if !c.peek_ok then
    { source := mkSource srv c
      outcome := .task .errored
      inv := ⟨1, 1, 0, 0, 0⟩ }
  else
    match c.detected with
    | none =>
        { source := mkSource srv c
          outcome := .task (.watched (.tcpForward (mkSource srv c)))
          inv := ⟨1, 1, 1, 0, 1⟩ }
    | some .Http1 =>
        if c.route_ok then
          { source := mkSource srv c
            outcome := .task (.watched (.http1Conn (mkSource srv c)))
            inv := ⟨1, 1, 1, 1, 0⟩ }
        else
          { source := mkSource srv c
            outcome := .task .errored
            inv := ⟨1, 1, 1, 1, 0⟩ }
    | some .Http2 =>
        { source := mkSource srv c
          outcome := .task (.watched (.http2Conn (mkSource srv c)))
          inv := ⟨1, 1, 1, 0, 0⟩ }

/-- True unless the outcome hands connection-driving work to the executor
without drain supervision. -/
def ServeOutcome.noUnsupervisedWork : ServeOutcome → Bool
  | .task (.bare _) => false
  | _ => true

/-- The IPv4-mapped IPv6 form `::ffff:a.b.c.d` of an IPv4 address. -/
def ipv4_mapped (v : Ipv4Addr) : Ipv6Addr :=
  ⟨0, 0, 0, 0, 0, 0xffff, v.a * 256 + v.b, v.c * 256 + v.d⟩

/-- The deprecated IPv4-compatible IPv6 form `::a.b.c.d` of an IPv4
address. -/
def ipv4_compatible (v : Ipv4Addr) : Ipv6Addr :=
  ⟨0, 0, 0, 0, 0, 0, v.a * 256 + v.b, v.c * 256 + v.d⟩

/-- The cross-family equality exactly as the claim states it: ports equal,
and both IPv4 and equal, or both IPv6 and equal, or one IP is the
IPv4-MAPPED (`::ffff:` only) IPv6 form of the other. Written from the
claim's words, to be compared against `Source.same_addr` from the source. -/
def claimed_same_addr (a0 a1 : SocketAddr) : Bool :=
  (a0.port == a1.port) &&
    (match a0.ip, a1.ip with
     | .V4 b0, .V4 b1 => b0 == b1
     | .V6 b0, .V6 b1 => b0 == b1
     | .V6 b0, .V4 b1 => ipv4_mapped b1 == b0
     | .V4 b0, .V6 b1 => ipv4_mapped b0 == b1)

/-- The amended cross-family equality: ports equal, and both IPv4 and
equal, or both IPv6 and equal, or one IP is the IPv4-mapped (`::ffff:`)
OR the deprecated IPv4-compatible (`::`) IPv6 form of the other. -/
def amended_same_addr (a0 a1 : SocketAddr) : Bool :=
  (a0.port == a1.port) &&
    (match a0.ip, a1.ip with
     | .V4 b0, .V4 b1 => b0 == b1
     | .V6 b0, .V6 b1 => b0 == b1
     | .V6 b0, .V4 b1 => (ipv4_mapped b1 == b0) || (ipv4_compatible b1 == b0)
     | .V4 b0, .V6 b1 => (ipv4_mapped b0 == b1) || (ipv4_compatible b0 == b1))

/-- Claim C1: `orig_dst_if_not_local` returns `None` iff no original
destination was recorded or the recorded one is `same_addr`-equal to the
local address; in every other case it returns `Some` of exactly the
recorded `orig_dst`. -/
theorem orig_dst_if_not_local_spec (s : Source) :
    (s.orig_dst_if_not_local = none ↔
      s.orig_dst = none ∨
        ∃ a, s.orig_dst = some a ∧ Source.same_addr a s.local_addr = true) ∧
    (∀ a, s.orig_dst_if_not_local = some a → s.orig_dst = some a) ∧
    (∀ a, s.orig_dst = some a → Source.same_addr a s.local_addr = false →
      s.orig_dst_if_not_local = some a) := by
  rcases s with ⟨r, l, od, t⟩
  rcases od with _ | a
  · simp [Source.orig_dst_if_not_local]
  · simp only [Source.orig_dst_if_not_local]
    by_cases h : Source.same_addr a l = true
    · simp [h]
    · simp [h, Bool.not_eq_true] at *

/-- Witness for C1: a recorded destination differing from the local
address (same IP, different port) is passed through unchanged. -/
theorem orig_dst_if_not_local_spec_witness :
    Source.orig_dst_if_not_local
      ⟨⟨.V4 ⟨192, 168, 0, 2⟩, 4321⟩, ⟨.V4 ⟨10, 0, 0, 1⟩, 80⟩,
        some ⟨.V4 ⟨10, 0, 0, 1⟩, 81⟩, ⟨0⟩⟩ =
      some ⟨.V4 ⟨10, 0, 0, 1⟩, 81⟩ :=
  (orig_dst_if_not_local_spec _).2.2 _ rfl (by decide)

/-- Claim C10: `same_addr` is reflexive and symmetric. -/
theorem same_addr_refl_and_symm :
    (∀ a : SocketAddr, Source.same_addr a a = true) ∧
    (∀ a0 a1 : SocketAddr,
      Source.same_addr a0 a1 = Source.same_addr a1 a0) := by
  constructor
  · intro a
    rcases a with ⟨ip, p⟩
    cases ip <;> simp [Source.same_addr]
  · intro a0 a1
    rcases a0 with ⟨ip0, p0⟩
    rcases a1 with ⟨ip1, p1⟩
    cases ip0 <;> cases ip1 <;>
      simp only [Source.same_addr] <;>
      rw [Bool.eq_iff_iff] <;>
      simp only [Bool.and_eq_true, beq_iff_eq] <;>
      exact ⟨fun ⟨h1, h2⟩ => ⟨h1.symm, h2.symm⟩,
             fun ⟨h1, h2⟩ => ⟨h1.symm, h2.symm⟩⟩

/-- `Ipv6Addr.to_ipv4` succeeds with `v4` exactly when the IPv6 address is
the IPv4-mapped or the IPv4-compatible form of `v4` (for in-range
segments/octets). -/
theorem to_ipv4_eq_some_iff (v6 : Ipv6Addr) (v4 : Ipv4Addr)
    (h6 : v6.wf) (h4 : v4.wf) :
    v6.to_ipv4 = some v4 ↔
      ipv4_mapped v4 = v6 ∨ ipv4_compatible v4 = v6 := by
  rcases v6 with ⟨s0, s1, s2, s3, s4, s5, s6, s7⟩
  rcases v4 with ⟨a, b, c, d⟩
  obtain ⟨h60, h61, h62, h63, h64, h65, h66, h67⟩ := h6
  obtain ⟨ha, hb, hc, hd⟩ := h4
  simp only [Ipv6Addr.to_ipv4, ipv4_mapped, ipv4_compatible,
    Ipv6Addr.mk.injEq] at *
  split
  next hz =>
    simp only [Option.some.injEq, Ipv4Addr.mk.injEq]
    constructor
    · rintro ⟨rfl, rfl, rfl, rfl⟩
      obtain ⟨rfl, rfl, rfl, rfl, rfl, h5⟩ := hz
      rcases h5 with rfl | rfl
      · right
        refine ⟨rfl, rfl, rfl, rfl, rfl, rfl, ?_, ?_⟩ <;> omega
      · left
        refine ⟨rfl, rfl, rfl, rfl, rfl, rfl, ?_, ?_⟩ <;> omega
    · rintro (⟨rfl, rfl, rfl, rfl, rfl, rfl, h6eq, h7eq⟩ |
              ⟨rfl, rfl, rfl, rfl, rfl, rfl, h6eq, h7eq⟩) <;>
        refine ⟨?_, ?_, ?_, ?_⟩ <;> omega
  next hz =>
    constructor
    · intro h
      exact Option.noConfusion h
    · rintro (⟨rfl, rfl, rfl, rfl, rfl, rfl, h6eq, h7eq⟩ |
              ⟨rfl, rfl, rfl, rfl, rfl, rfl, h6eq, h7eq⟩) <;>
        exact absurd (by omega) hz

/-- Counterexample to C2 as stated: `::10.0.0.1` (the deprecated
IPv4-COMPATIBLE form of `10.0.0.1`, segments `[0,0,0,0,0,0,0x0a00,0x0001]`,
not the IPv4-mapped `::ffff:` form) IS judged equal to `10.0.0.1` by the
code's `same_addr` at port 80, while the claim's mapped-only rule judges
them unequal. -/
theorem same_addr_claim_counterexample :
    Source.same_addr
      ⟨.V6 ⟨0, 0, 0, 0, 0, 0, 0x0a00, 0x0001⟩, 80⟩
      ⟨.V4 ⟨10, 0, 0, 1⟩, 80⟩ = true ∧
    claimed_same_addr
      ⟨.V6 ⟨0, 0, 0, 0, 0, 0, 0x0a00, 0x0001⟩, 80⟩
      ⟨.V4 ⟨10, 0, 0, 1⟩, 80⟩ = false := by
  constructor <;> rfl

/-- Claim C2 amended: for in-range addresses, `same_addr` returns true iff
the ports are equal and (both IPs are IPv4 and equal; or both IPv6 and
equal; or one IP is the IPv4-mapped OR the deprecated IPv4-compatible
IPv6 form of the other) — stated as extensional equality with the
predicate written from the amended words. -/
theorem same_addr_eq_amended (a0 a1 : SocketAddr)
    (h0 : a0.wf) (h1 : a1.wf) :
    Source.same_addr a0 a1 = amended_same_addr a0 a1 := by
  rcases a0 with ⟨ip0, p0⟩
  rcases a1 with ⟨ip1, p1⟩
  obtain ⟨hip0, hp0⟩ := h0
  obtain ⟨hip1, hp1⟩ := h1
  cases ip0 <;> cases ip1 <;> simp only [Source.same_addr, amended_same_addr]
  · -- V4 / V6
    rename_i b0 b1
    congr 1
    rw [Bool.eq_iff_iff]
    simp only [beq_iff_eq, Bool.or_eq_true]
    rw [eq_comm]
    exact to_ipv4_eq_some_iff b1 b0 hip1 hip0
  · -- V6 / V4
    rename_i b0 b1
    congr 1
    rw [Bool.eq_iff_iff]
    simp only [beq_iff_eq, Bool.or_eq_true]
    exact to_ipv4_eq_some_iff b0 b1 hip0 hip1

/-- Witness for the amended C2: the counterexample pair is in range, and
the code's verdict agrees with the amended predicate on it. -/
theorem same_addr_eq_amended_witness :
    Source.same_addr
      ⟨.V6 ⟨0, 0, 0, 0, 0, 0, 0x0a00, 0x0001⟩, 80⟩
      ⟨.V4 ⟨10, 0, 0, 1⟩, 80⟩ =
    amended_same_addr
      ⟨.V6 ⟨0, 0, 0, 0, 0, 0, 0x0a00, 0x0001⟩, 80⟩
      ⟨.V4 ⟨10, 0, 0, 1⟩, 80⟩ :=
  same_addr_eq_amended _ _ (by decide) (by decide)

/-- The `Source` `serve` reports is `mkSource` in every branch. -/
theorem serve_source_eq (srv : Server) (c : ConnInput) :
    (serve srv c).source = mkSource srv c := by
  unfold serve
  repeat' split
  all_goals rfl

/-- `accept.make` is invoked exactly once in every branch of `serve`. -/
theorem serve_inv_accept_eq (srv : Server) (c : ConnInput) :
    (serve srv c).inv.accept = 1 := by
  unfold serve
  repeat' split
  all_goals rfl

/-- Claim C3: a present `orig_dst` whose port is in the disable set sends
the connection straight to the drain-watched opaque TCP forward; neither
the peek nor `Protocol::detect` is ever invoked. -/
theorem serve_disable_detection_bypass (srv : Server) (c : ConnInput)
    (a : SocketAddr) (ha : c.orig_dst = some a)
    (hp : srv.disable_protocol_detection_ports.contains a.port = true)
    (hacc : c.accept_ok = true) :
    (serve srv c).outcome =
      .task (.watched (.tcpForward (serve srv c).source)) ∧
    (serve srv c).inv.peek = 0 ∧ (serve srv c).inv.detect = 0 := by
  have hp' : a.port ∈ srv.disable_protocol_detection_ports := by
    simpa using hp
  simp [serve, disable_protocol_detection, ha, hp', hacc]

/-- Claim C4: when the peek fails (and detection was not disabled), the
connection task terminates with a logged error and neither the
route-factory nor the connect-factory is invoked. -/
theorem serve_peek_failure (srv : Server) (c : ConnInput)
    (hacc : c.accept_ok = true)
    (hnd : disable_protocol_detection srv c = false)
    (hpeek : c.peek_ok = false) :
    (serve srv c).outcome = .task .errored ∧
    (serve srv c).inv.route = 0 ∧ (serve srv c).inv.connect = 0 := by
  simp [serve, hacc, hnd, hpeek]

/-- Claim C5: on an `Http1`-classified connection whose `route.make`
fails, the task completes with an error and no adapter or forwarder is
started (in particular the connect-factory is never invoked). -/
theorem serve_http1_route_failure (srv : Server) (c : ConnInput)
    (hacc : c.accept_ok = true)
    (hnd : disable_protocol_detection srv c = false)
    (hpeek : c.peek_ok = true)
    (hdet : c.detected = some .Http1)
    (hroute : c.route_ok = false) :
    (serve srv c).outcome = .task .errored ∧
    (serve srv c).inv.route = 1 ∧ (serve srv c).inv.connect = 0 := by
  simp [serve, hacc, hnd, hpeek, hdet, hroute]

/-- Claim C6: `serve` invokes `accept.make` exactly once, and its outcome
is the `expect` panic exactly when that invocation fails. -/
theorem serve_accept_contract (srv : Server) (c : ConnInput) :
    (serve srv c).inv.accept = 1 ∧
    ((serve srv c).outcome = .panic "source must be acceptable" ↔
      c.accept_ok = false) := by
  refine ⟨serve_inv_accept_eq srv c, ?_⟩
  cases hacc : c.accept_ok
  · simp [serve, hacc]
  · unfold serve
    rw [hacc]
    repeat' split
    all_goals simp_all

/-- Claim C7: no branch of `serve` hands connection-driving work to the
executor without drain supervision. -/
theorem serve_always_drain_supervised (srv : Server) (c : ConnInput) :
    ((serve srv c).outcome).noUnsupervisedWork = true := by
  unfold serve
  repeat' split
  all_goals rfl

/-- Claim C8: the constructed `Source`'s local address is the socket's
actually-bound local address when available, and exactly the configured
listen address otherwise. -/
theorem serve_source_local_fallback (srv : Server) (c : ConnInput) :
    (∀ l, c.conn_local_addr = some l →
      (serve srv c).source.local_addr = l) ∧
    (c.conn_local_addr = none →
      (serve srv c).source.local_addr = srv.listen_addr) := by
  rw [serve_source_eq]
  constructor
  · intro l hl
    simp [mkSource, hl]
  · intro hl
    simp [mkSource, hl]

/-- Claim C9: the disable decision reads the RAW resolved `orig_dst`: a
present `orig_dst` with a disabled port bypasses detection even when it
is `same_addr`-equal to the local address (where `orig_dst_if_not_local`
would return `None`), and an absent `orig_dst` always proceeds to the
peek. -/
theorem serve_disable_uses_raw_orig_dst (srv : Server) (c : ConnInput)
    (hacc : c.accept_ok = true) :
    (∀ a, c.orig_dst = some a →
      srv.disable_protocol_detection_ports.contains a.port = true →
      Source.same_addr a (serve srv c).source.local_addr = true →
      (serve srv c).outcome =
        .task (.watched (.tcpForward (serve srv c).source)) ∧
      (serve srv c).inv.peek = 0 ∧ (serve srv c).inv.detect = 0) ∧
    (c.orig_dst = none → (serve srv c).inv.peek = 1) := by
  constructor
  · intro a ha hp _
    have hp' : a.port ∈ srv.disable_protocol_detection_ports := by
      simpa using hp
    simp [serve, disable_protocol_detection, ha, hp', hacc]
  · intro ha
    have hnd : disable_protocol_detection srv c = false := by
      simp [disable_protocol_detection, ha]
    cases hpk : c.peek_ok
    · simp [serve, hacc, hnd, hpk]
    · cases hdet : c.detected with
      | none => simp [serve, hacc, hnd, hpk, hdet]
      | some p =>
          cases p <;> cases hrt : c.route_ok <;>
            simp [serve, hacc, hnd, hpk, hdet, hrt]

/-- Sample data for concrete instantiations. -/
def sampleRemote : SocketAddr := ⟨.V4 ⟨192, 168, 0, 2⟩, 55000⟩

def sampleListen : SocketAddr := ⟨.V4 ⟨0, 0, 0, 0⟩, 4143⟩

def sampleLocal : SocketAddr := ⟨.V4 ⟨10, 0, 0, 1⟩, 4143⟩

/-- A MySQL-like original destination on a detection-disabled port. -/
def sampleMysqlDst : SocketAddr := ⟨.V4 ⟨10, 0, 0, 5⟩, 3306⟩

def sampleSrv : Server := ⟨[3306], sampleListen⟩

/-- A connection bound for the disabled port 3306 whose bytes would even
parse as HTTP/1. -/
def sampleBypassConn : ConnInput :=
  ⟨sampleRemote, some sampleLocal, some sampleMysqlDst, ⟨0⟩,
    true, true, some .Http1, true⟩

/-- A connection with no original destination whose peek fails. -/
def samplePeekFailConn : ConnInput :=
  ⟨sampleRemote, some sampleLocal, none, ⟨0⟩, true, false, none, true⟩

/-- An HTTP/1 connection for which the route-factory fails. -/
def sampleRouteFailConn : ConnInput :=
  ⟨sampleRemote, some sampleLocal, none, ⟨0⟩, true, true, some .Http1,
    false⟩

/-- A connection whose accept-factory invocation fails. -/
def sampleAcceptFailConn : ConnInput :=
  ⟨sampleRemote, some sampleLocal, none, ⟨0⟩, false, true, none, true⟩

/-- A connection with no bound local address. -/
def sampleNoLocalConn : ConnInput :=
  ⟨sampleRemote, none, none, ⟨0⟩, true, true, none, true⟩

/-- A server disabling detection on the listen port itself, and a
connection whose `orig_dst` equals its local address on that port. -/
def sampleSelfSrv : Server := ⟨[4143], sampleListen⟩

def sampleSelfConn : ConnInput :=
  ⟨sampleRemote, some sampleLocal, some sampleLocal, ⟨0⟩,
    true, true, some .Http2, true⟩

/-- Witness for C3: the port-3306 connection is forwarded opaquely under
drain supervision with zero peek and detect invocations. -/
theorem serve_disable_detection_bypass_witness :
    (serve sampleSrv sampleBypassConn).outcome =
      .task (.watched (.tcpForward (serve sampleSrv sampleBypassConn).source)) ∧
    (serve sampleSrv sampleBypassConn).inv.peek = 0 ∧
    (serve sampleSrv sampleBypassConn).inv.detect = 0 :=
  serve_disable_detection_bypass sampleSrv sampleBypassConn sampleMysqlDst
    rfl (by decide) rfl

/-- Witness for C4: the failed-peek connection errors with no route or
connect invocation. -/
theorem serve_peek_failure_witness :
    (serve sampleSrv samplePeekFailConn).outcome = .task .errored ∧
    (serve sampleSrv samplePeekFailConn).inv.route = 0 ∧
    (serve sampleSrv samplePeekFailConn).inv.connect = 0 :=
  serve_peek_failure sampleSrv samplePeekFailConn rfl (by decide) rfl

/-- Witness for C5: the HTTP/1 connection with a failing route-factory
errors without starting an adapter or forwarder. -/
theorem serve_http1_route_failure_witness :
    (serve sampleSrv sampleRouteFailConn).outcome = .task .errored ∧
    (serve sampleSrv sampleRouteFailConn).inv.route = 1 ∧
    (serve sampleSrv sampleRouteFailConn).inv.connect = 0 :=
  serve_http1_route_failure sampleSrv sampleRouteFailConn rfl (by decide)
    rfl rfl rfl

/-- Witness for C6: one accept invocation on a normal connection, and the
`expect` panic on a connection whose accept-factory fails. -/
theorem serve_accept_contract_witness :
    (serve sampleSrv sampleBypassConn).inv.accept = 1 ∧
    (serve sampleSrv sampleAcceptFailConn).outcome =
      .panic "source must be acceptable" :=
  ⟨(serve_accept_contract sampleSrv sampleBypassConn).1,
   (serve_accept_contract sampleSrv sampleAcceptFailConn).2.mpr rfl⟩

/-- Witness for C8: the bound local address is used when present, the
configured listen address when absent. -/
theorem serve_source_local_fallback_witness :
    (serve sampleSrv sampleBypassConn).source.local_addr = sampleLocal ∧
    (serve sampleSrv sampleNoLocalConn).source.local_addr =
      sampleSrv.listen_addr :=
  ⟨(serve_source_local_fallback sampleSrv sampleBypassConn).1
      sampleLocal rfl,
   (serve_source_local_fallback sampleSrv sampleNoLocalConn).2 rfl⟩

/-- Witness for C9: an `orig_dst` equal to the local address on a
disabled port still bypasses detection, and an absent `orig_dst` reaches
the peek. -/
theorem serve_disable_uses_raw_orig_dst_witness :
    ((serve sampleSelfSrv sampleSelfConn).outcome =
      .task (.watched (.tcpForward (serve sampleSelfSrv sampleSelfConn).source)) ∧
     (serve sampleSelfSrv sampleSelfConn).inv.peek = 0 ∧
     (serve sampleSelfSrv sampleSelfConn).inv.detect = 0) ∧
    (serve sampleSelfSrv sampleNoLocalConn).inv.peek = 1 :=
  ⟨(serve_disable_uses_raw_orig_dst sampleSelfSrv sampleSelfConn rfl).1
      sampleLocal rfl (by decide) (by decide),
   (serve_disable_uses_raw_orig_dst sampleSelfSrv sampleNoLocalConn
      rfl).2 rfl⟩
